/-
  DataInfraPilot — verification of the endpoint, validation, store and
  cluster-modal logic of the TypeScript front-end.

  Each definition is a shallow embedding of one function of the source
  (`src/frontend`, `src/unnamed`); JavaScript dynamic values (the
  `Record<string, any>` config mappings) are embedded as association
  lists of a small `JsValue` type, and JavaScript truthiness and strict
  equality are made explicit.  Theorems `c1_*` … `c10_*` settle the ten
  claims about this code.
-/
import Mathlib

/-! ## Shared data model (src/frontend/src/types/index.ts) -/

/-- The three ingress access modes of an endpoint
(`enum AccessEndpointType` in types/index.ts). -/
inductive AccessEndpointType where
  | subdomain
  | domain_path
  | cluster_ip_path
deriving DecidableEq

/-- An endpoint configuration submitted with a deployment
(`AccessEndpointConfig` in types/index.ts). -/
structure AccessEndpointConfig where
  name : String
  access_type : AccessEndpointType
  value : String
deriving DecidableEq

/-- The lifecycle state enum shared by clusters, deployments and volumes
(`stateEnum`; members observed in the source: CREATING, DELETING,
DEPLOYING, FAILED, RUNNING, UPDATING, plus `pending` per the data model). -/
inductive stateEnum where
  | pending
  | creating
  | running
  | updating
  | deploying
  | failed
  | deleting
deriving DecidableEq

/-! ## JavaScript string primitives

The normalization in `DeployAppModal.handleSubmit` uses
`String.prototype.startsWith('/')` and `String.prototype.includes('.')`;
we embed them over the character list of a Lean `String`. -/

/-- `value.startsWith('/')` — the first character is a slash. -/
def jsStartsWithSlash (s : String) : Bool :=
  s.data.head? = some '/'

/-- `value.includes('.')` — some character is a dot. -/
def jsIncludesDot (s : String) : Bool :=
  s.data.contains '.'

/-- JS truthiness of the optional cluster domain (`cluster?.domainName`):
present and non-empty. -/
def jsTruthyDomain (d : Option String) : Bool :=
  match d with
  | some s => s ≠ ""
  | none => false

/-! ## Endpoint value normalization
(`handleSubmit`, `formattedEndpoints` map, DeployAppModal lines 282–305)

The source condition for the slash step is

  `(config.access_type === AccessEndpointType.DOMAIN_PATH ||
    AccessEndpointType.CLUSTER_IP_PATH) && !formattedValue.startsWith('/')`

whose second disjunct is the enum *constant* `"cluster_ip_path"`, a
non-empty string and hence truthy: the disjunction is identically true and
the slash is prepended for every access type.  `slashStepGuard` embeds the
condition as written. -/

/-- JS truthiness of the string constant `AccessEndpointType.CLUSTER_IP_PATH`. -/
def clusterIpPathConstTruthy : Bool := "cluster_ip_path" ≠ ""

/-- The (buggy) guard of the slash-prepend step, as written in the source. -/
def slashStepGuard (c : AccessEndpointConfig) : Bool :=
  (c.access_type = AccessEndpointType.domain_path) || clusterIpPathConstTruthy

/-- The slash-prepend step ("For paths, ensure they start with a '/'"). -/
def slashStep (c : AccessEndpointConfig) : String :=
  if slashStepGuard c && !jsStartsWithSlash c.value then "/" ++ c.value else c.value

/-- One pass of the endpoint-value normalization performed at deployment
submission, for a cluster whose optional domain name is `d`. -/
def formatEndpointValue (d : Option String) (c : AccessEndpointConfig) : String :=
  let v1 := slashStep c
  -- "For subdomains, include the full domain name if it's not already included"
  if c.access_type = AccessEndpointType.subdomain && jsTruthyDomain d then
    if !jsIncludesDot v1 then v1 ++ "." ++ (d.getD "") else v1
  else if c.access_type = AccessEndpointType.domain_path && jsTruthyDomain d then
    (d.getD "") ++ v1
  else v1

/-- The whole normalization of one endpoint configuration (the element-wise
body of the `formattedEndpoints` map). -/
def formatEndpoint (d : Option String) (c : AccessEndpointConfig) : AccessEndpointConfig :=
  { c with value := formatEndpointValue d c }

example : formatEndpointValue (some "example.com")
    ⟨"flower-ui", AccessEndpointType.subdomain, "flower"⟩ = "/flower.example.com" := by decide

example : formatEndpointValue (some "example.com")
    ⟨"ui", AccessEndpointType.domain_path, "grafana"⟩ = "example.com/grafana" := by decide

example : formatEndpointValue (some "example.com")
    ⟨"ui", AccessEndpointType.domain_path, "example.com/grafana"⟩
    = "example.com/example.com/grafana" := by decide

/-! ## String-level facts about the normalization steps -/

theorem jsStartsWithSlash_prepend (s : String) :
    jsStartsWithSlash ("/" ++ s) = true := by
  simp [jsStartsWithSlash, String.data_append]

theorem jsStartsWithSlash_appendRight (s t : String)
    (h : jsStartsWithSlash s = true) : jsStartsWithSlash (s ++ t) = true := by
  unfold jsStartsWithSlash at h ⊢
  rw [String.data_append]
  cases hs : s.data with
  | nil => rw [hs] at h; simp at h
  | cons a l => rw [hs] at h; simpa using h

theorem jsIncludesDot_dotAppend (s t : String) :
    jsIncludesDot (s ++ "." ++ t) = true := by
  have hdot : ("." : String).data = ['.'] := rfl
  simp [jsIncludesDot, String.data_append, hdot]

/-- The guard of the slash-prepend step is identically true: its second
disjunct is the truthy constant `"cluster_ip_path"`. -/
theorem slashStepGuard_true (c : AccessEndpointConfig) : slashStepGuard c = true := by
  simp [slashStepGuard, clusterIpPathConstTruthy]

theorem slashStep_startsWithSlash (c : AccessEndpointConfig) :
    jsStartsWithSlash (slashStep c) = true := by
  unfold slashStep
  rw [slashStepGuard_true]
  cases hv : jsStartsWithSlash c.value with
  | false => simp [hv, jsStartsWithSlash_prepend]
  | true => simp [hv]

theorem slashStep_of_startsWith (c : AccessEndpointConfig)
    (h : jsStartsWithSlash c.value = true) : slashStep c = c.value := by
  unfold slashStep
  rw [h]
  simp

/-- Under the claim's side condition (a `domain_path` endpoint only on a
cluster without a domain), the normalized value always starts with `/`. -/
theorem formatEndpointValue_startsWithSlash (d : Option String) (c : AccessEndpointConfig)
    (h : c.access_type = AccessEndpointType.domain_path → jsTruthyDomain d = false) :
    jsStartsWithSlash (formatEndpointValue d c) = true := by
  unfold formatEndpointValue
  cases ha : c.access_type with
  | subdomain =>
      cases ht : jsTruthyDomain d with
      | false => simpa [ha, ht] using slashStep_startsWithSlash c
      | true =>
          cases hdot : jsIncludesDot (slashStep c) with
          | false =>
              simp only [ha, ht, hdot]
              simpa using jsStartsWithSlash_appendRight _ _
                (jsStartsWithSlash_appendRight _ _ (slashStep_startsWithSlash c))
          | true => simpa [ha, ht, hdot] using slashStep_startsWithSlash c
  | domain_path => simpa [ha, h ha] using slashStep_startsWithSlash c
  | cluster_ip_path => simpa [ha] using slashStep_startsWithSlash c

/-- A subdomain endpoint on a cluster with a domain always ends up with a
dot in its normalized value. -/
theorem formatEndpointValue_subdomain_includesDot (d : Option String)
    (c : AccessEndpointConfig) (ha : c.access_type = AccessEndpointType.subdomain)
    (ht : jsTruthyDomain d = true) :
    jsIncludesDot (formatEndpointValue d c) = true := by
  unfold formatEndpointValue
  cases hdot : jsIncludesDot (slashStep c) with
  | false => simpa [ha, ht, hdot] using jsIncludesDot_dotAppend (slashStep c) (d.getD "")
  | true => simp [ha, ht, hdot]

/-- C1: the claim states the §3 normalization rule — prepend a slash iff the
access type is `domain_path` or `cluster_ip_path`, and never for a
`subdomain` endpoint.  The code contradicts it (and its own inline comment
"For paths, ensure they start with a '/'"): the guard's second disjunct is
the truthy constant `AccessEndpointType.CLUSTER_IP_PATH`, so the slash is
prepended for every access type.  At the failing input — a subdomain
endpoint with value `"flower"` on a cluster with domain `"example.com"` —
the code produces `"/flower.example.com"`, a subdomain value with a
leading slash. -/
theorem c1_subdomain_value_gets_slash :
    formatEndpointValue (some "example.com")
      ⟨"flower-ui", AccessEndpointType.subdomain, "flower"⟩ = "/flower.example.com"
    ∧ (∀ c : AccessEndpointConfig, slashStepGuard c = true) := by
  exact ⟨by decide, slashStepGuard_true⟩

/-- C2 counterexample: normalization is not idempotent.  For a `domain_path`
endpoint on a cluster with domain `"example.com"`, the already-normalized
value `"example.com/grafana"` is normalized again to
`"example.com/example.com/grafana"`. -/
theorem c2_counterexample :
    formatEndpoint (some "example.com")
        (formatEndpoint (some "example.com")
          ⟨"grafana-ui", AccessEndpointType.domain_path, "grafana"⟩)
      ≠ formatEndpoint (some "example.com")
          ⟨"grafana-ui", AccessEndpointType.domain_path, "grafana"⟩ := by
  decide

/-- C2 (amended): endpoint-value normalization at deployment submission is
idempotent for every endpoint except a `domain_path` endpoint on a cluster
with a (truthy) domain name — there the cluster domain is prepended again
on each pass.  Formally: if the endpoint is not a `domain_path` endpoint on
a cluster with a domain, normalizing a normalized endpoint is a no-op. -/
theorem c2_normalization_idempotent (d : Option String) (c : AccessEndpointConfig)
    (h : c.access_type = AccessEndpointType.domain_path → jsTruthyDomain d = false) :
    formatEndpoint d (formatEndpoint d c) = formatEndpoint d c := by
  have hslash : jsStartsWithSlash (formatEndpointValue d c) = true :=
    formatEndpointValue_startsWithSlash d c h
  have hvalue : formatEndpointValue d (formatEndpoint d c) = formatEndpointValue d c := by
    have hexpand : formatEndpointValue d (formatEndpoint d c)
        = (if c.access_type = AccessEndpointType.subdomain && jsTruthyDomain d then
            (if !jsIncludesDot (formatEndpointValue d c) then
              formatEndpointValue d c ++ "." ++ (d.getD "")
            else formatEndpointValue d c)
          else if c.access_type = AccessEndpointType.domain_path && jsTruthyDomain d then
            (d.getD "") ++ formatEndpointValue d c
          else formatEndpointValue d c) := by
      conv_lhs => rw [formatEndpointValue]
      rw [slashStep_of_startsWith (formatEndpoint d c) hslash]
      rfl
    rw [hexpand]
    cases ha : c.access_type with
    | subdomain =>
        cases ht : jsTruthyDomain d with
        | false => simp [ht]
        | true =>
            have hdot : jsIncludesDot (formatEndpointValue d c) = true :=
              formatEndpointValue_subdomain_includesDot d c ha ht
            simp [ht, hdot]
    | domain_path => simp [h ha]
    | cluster_ip_path => simp
  calc formatEndpoint d (formatEndpoint d c)
      = { c with value := formatEndpointValue d (formatEndpoint d c) } := rfl
    _ = { c with value := formatEndpointValue d c } := by rw [hvalue]
    _ = formatEndpoint d c := rfl

/-- Witness for the amended C2 at a concrete input: a `cluster_ip_path`
endpoint on a cluster with a domain. -/
theorem c2_normalization_idempotent_witness :
    formatEndpoint (some "example.com")
        (formatEndpoint (some "example.com")
          ⟨"web-ui", AccessEndpointType.cluster_ip_path, "airflow"⟩)
      = formatEndpoint (some "example.com")
          ⟨"web-ui", AccessEndpointType.cluster_ip_path, "airflow"⟩ :=
  c2_normalization_idempotent (some "example.com")
    ⟨"web-ui", AccessEndpointType.cluster_ip_path, "airflow"⟩ (by decide)

/-! ## Catalog and store entity types (src/frontend/src/types/index.ts) -/

structure Region where
  id : String
  name : String
deriving DecidableEq

structure NodeType where
  id : String
  name : String
deriving DecidableEq

structure Provider where
  id : String
  name : String
  regions : List Region
  nodeTypes : List NodeType
deriving DecidableEq

structure Volume where
  id : String
  name : String
  size : Int
  provider : String
  region : String
  status : stateEnum
  createdAt : String
  description : Option String := none
  inUse : Option Bool := none
deriving DecidableEq

/-- Endpoint schema entry of an application (`AccessEndpoint` in
types/index.ts). -/
structure AccessEndpoint where
  name : String
  description : String
  default_access : AccessEndpointType
  default_value : String
  required : Bool
deriving DecidableEq

/-! ## getAvailableVolumesForProvider (store, part_005 lines 838–847) -/

/-- `getAvailableVolumesForProvider`: look the provider up by id; if absent
return `[]`, else keep the volumes of that provider in `running` state. -/
def getAvailableVolumesForProvider (providers : List Provider) (volumes : List Volume)
    (providerId : String) : List Volume :=
  match providers.find? (fun p => p.id = providerId) with
  | none => []
  | some provider =>
      volumes.filter (fun vol =>
        vol.provider = provider.id && vol.status = stateEnum.running)

/-- C10: `getAvailableVolumesForProvider` returns exactly the volumes whose
provider field equals the requested id and whose status is `running`
(volumes in `creating`, `failed` or `deleting` states are never offered),
and it returns `[]` when the id matches no known provider. -/
theorem c10_available_volumes (providers : List Provider) (volumes : List Volume)
    (providerId : String) :
    (∀ v, v ∈ getAvailableVolumesForProvider providers volumes providerId ↔
      v ∈ volumes ∧ v.provider = providerId ∧ v.status = stateEnum.running
        ∧ ∃ p ∈ providers, p.id = providerId)
    ∧ ((∀ p ∈ providers, p.id ≠ providerId) →
        getAvailableVolumesForProvider providers volumes providerId = []) := by
  constructor
  · intro v
    unfold getAvailableVolumesForProvider
    cases hfind : providers.find? (fun p => decide (p.id = providerId)) with
    | none =>
        rw [List.find?_eq_none] at hfind
        simp only [List.not_mem_nil, false_iff]
        rintro ⟨-, -, -, p, hp, hpid⟩
        exact absurd (by simpa using hpid) (by simpa using hfind p hp)
    | some p =>
        have hpid : p.id = providerId := by
          simpa using List.find?_some hfind
        have hmem : p ∈ providers := List.mem_of_find?_eq_some hfind
        simp only [List.mem_filter, Bool.and_eq_true, decide_eq_true_eq, hpid]
        constructor
        · rintro ⟨hv, hprov, hrun⟩
          exact ⟨hv, hprov, hrun, p, hmem, hpid⟩
        · rintro ⟨hv, hprov, hrun, -⟩
          exact ⟨hv, hprov, hrun⟩
  · intro hnone
    unfold getAvailableVolumesForProvider
    cases hfind : providers.find? (fun p => decide (p.id = providerId)) with
    | none => rfl
    | some p =>
        have hpid : p.id = providerId := by
          simpa using List.find?_some hfind
        exact absurd hpid (hnone p (List.mem_of_find?_eq_some hfind))

/-- Witness for C10 at concrete inputs: a known provider with one running
and one failed volume, and an unknown provider id. -/
theorem c10_available_volumes_witness :
    (⟨"vol-1", "data", 50, "hetzner", "fsn1", stateEnum.running, "2025-01-01", none, none⟩ : Volume)
        ∈ getAvailableVolumesForProvider
            [⟨"hetzner", "Hetzner Cloud", [], []⟩]
            [⟨"vol-1", "data", 50, "hetzner", "fsn1", stateEnum.running, "2025-01-01", none, none⟩,
             ⟨"vol-2", "bad", 20, "hetzner", "fsn1", stateEnum.failed, "2025-01-02", none, none⟩]
            "hetzner"
    ∧ getAvailableVolumesForProvider
        [⟨"hetzner", "Hetzner Cloud", [], []⟩]
        [⟨"vol-1", "data", 50, "hetzner", "fsn1", stateEnum.running, "2025-01-01", none, none⟩]
        "digitalocean" = [] := by
  refine ⟨((c10_available_volumes _ _ _).1 _).mpr (by decide), ?_⟩
  exact (c10_available_volumes _ _ _).2 (by decide)

/-! ## Dynamic config mappings (`Record<string, any>`)

User application config is schema-less in the source; we embed it as an
association list of string keys to a small dynamic-value type, with JS
strict equality (`===`) and truthiness made explicit. -/

inductive JsValue where
  | str : String → JsValue
  | bool : Bool → JsValue
  | num : Int → JsValue
deriving DecidableEq

abbrev JsConfig := List (String × JsValue)

/-- `config[key]` — `none` models `undefined`. -/
def jsGet (config : JsConfig) (key : String) : Option JsValue :=
  (config.find? (fun kv => kv.fst = key)).map (fun kv => kv.snd)

/-- JS truthiness of a property read: `undefined`, `""`, `false` and `0`
are falsy. -/
def jsTruthy (v : Option JsValue) : Bool :=
  match v with
  | none => false
  | some (JsValue.str s) => s ≠ ""
  | some (JsValue.bool b) => b
  | some (JsValue.num n) => n ≠ 0

/-! ## Flower UI endpoint filtering (C6)

`AccessConfigStep` (part_018 lines 76–84) filters the application's
endpoint schema; `DeploymentDetails.filteredAccessEndpoints` (lines 67–75)
filters a deployment's stored endpoints. -/

/-- `filteredEndpoints` of `AccessConfigStep`: the `flower-ui` endpoint is
kept only when `applicationConfig.executor === 'CeleryExecutor'` and
`applicationConfig.flower_enabled === true`. -/
def accessConfigStepFilteredEndpoints (applicationConfig : JsConfig)
    (accessEndpoints : List AccessEndpoint) : List AccessEndpoint :=
  accessEndpoints.filter (fun endpoint =>
    if endpoint.name = "flower-ui" then
      (jsGet applicationConfig "executor" = some (JsValue.str "CeleryExecutor"))
        && (jsGet applicationConfig "flower_enabled" = some (JsValue.bool true))
    else true)

/-- `filteredAccessEndpoints` of `DeploymentDetails`: same rule, additionally
guarded by the deployment's application being `airflow`. -/
def deploymentDetailsFilteredAccessEndpoints (short_name : String) (config : JsConfig)
    (accessEndpoints : List AccessEndpointConfig) : List AccessEndpointConfig :=
  accessEndpoints.filter (fun c =>
    if c.name = "flower-ui" && short_name = "airflow" then
      (jsGet config "executor" = some (JsValue.str "CeleryExecutor"))
        && (jsGet config "flower_enabled" = some (JsValue.bool true))
    else true)

/-- C6: for an Airflow deployment the `flower-ui` endpoint survives both
filters (the deploy-modal access step and the deployment-details page) iff
it is present in the unfiltered list and the config has
`executor == "CeleryExecutor"` and `flower_enabled == true`; every other
endpoint always survives. -/
theorem c6_flower_ui_filtering (config : JsConfig) :
    (∀ (eps : List AccessEndpoint) (e : AccessEndpoint),
      e ∈ accessConfigStepFilteredEndpoints config eps ↔
        e ∈ eps ∧ (e.name = "flower-ui" →
          jsGet config "executor" = some (JsValue.str "CeleryExecutor")
            ∧ jsGet config "flower_enabled" = some (JsValue.bool true)))
    ∧ (∀ (eps : List AccessEndpointConfig) (c : AccessEndpointConfig),
      c ∈ deploymentDetailsFilteredAccessEndpoints "airflow" config eps ↔
        c ∈ eps ∧ (c.name = "flower-ui" →
          jsGet config "executor" = some (JsValue.str "CeleryExecutor")
            ∧ jsGet config "flower_enabled" = some (JsValue.bool true))) := by
  constructor
  · intro eps e
    unfold accessConfigStepFilteredEndpoints
    rw [List.mem_filter]
    by_cases hname : e.name = "flower-ui" <;>
      simp [hname]
  · intro eps c
    unfold deploymentDetailsFilteredAccessEndpoints
    rw [List.mem_filter]
    by_cases hname : c.name = "flower-ui" <;>
      simp [hname]

/-- Witness for C6 at a concrete input: with CeleryExecutor and Flower
enabled, the `flower-ui` endpoint survives the access-step filter. -/
theorem c6_flower_ui_filtering_witness :
    (⟨"flower-ui", "Flower UI", AccessEndpointType.cluster_ip_path, "/flower", false⟩
        : AccessEndpoint)
      ∈ accessConfigStepFilteredEndpoints
          [("executor", JsValue.str "CeleryExecutor"), ("flower_enabled", JsValue.bool true)]
          [⟨"flower-ui", "Flower UI", AccessEndpointType.cluster_ip_path, "/flower", false⟩] :=
  ((c6_flower_ui_filtering _).1 _ _).mpr (by decide)

/-! ## Application catalog (src/frontend/src/data/applications.ts) -/

/-- A config option of an application descriptor (`ConfigOption` in
types/index.ts); `conditional` is the optional `{field, value}` visibility
predicate. -/
structure ConfigOption where
  id : String
  name : String
  type : String
  required : Bool
  default : Option JsValue := none
  conditional : Option (String × JsValue) := none
deriving DecidableEq

structure VolumeRequirement where
  id : String
  name : String
  defaultSize : Int
  description : String
deriving DecidableEq

structure Application where
  id : Int
  short_name : String
  name : String
  configOptions : List ConfigOption
  volumeRequirements : List VolumeRequirement := []
deriving DecidableEq

/-- The Airflow catalog entry's config options (applications.ts). -/
def airflowCatalogOptions : List ConfigOption :=
  [ ⟨"version", "Airflow Version", "select", true, some (JsValue.str "2.8.1"), none⟩,
    ⟨"executor", "Executor", "select", true, some (JsValue.str "CeleryExecutor"), none⟩,
    ⟨"instance_name", "Instance Name", "text", true, some (JsValue.str "Airflow"), none⟩,
    ⟨"pgbouncer_enabled", "PGBouncer Enabled", "boolean", false, some (JsValue.bool true), none⟩,
    ⟨"flower_enabled", "Flower Enabled", "boolean", false, some (JsValue.bool true), none⟩,
    ⟨"dags_repository", "DAGs Git Repository URL", "text", true, some (JsValue.str ""), none⟩,
    ⟨"dags_repository_branch", "Branch Name", "text", true, some (JsValue.str "main"), none⟩,
    ⟨"dags_repository_subpath", "DAG Folder Name", "text", true, some (JsValue.str "dags"), none⟩,
    ⟨"dags_repository_private", "Repository is private", "boolean", false,
      some (JsValue.bool false), none⟩,
    ⟨"dags_repository_ssh_private_key", "SSH Private Key", "text", false,
      some (JsValue.str ""), some ("dags_repository_ssh_private_key", JsValue.bool true)⟩ ]

def airflowApp : Application :=
  ⟨1, "airflow", "Apache Airflow", airflowCatalogOptions,
    [⟨"1", "airflow-logs", 50, "Persistent storage for Airflow logs"⟩]⟩

def grafanaApp : Application := ⟨2, "grafana", "Grafana", [], []⟩

def sparkApp : Application :=
  ⟨3, "spark", "Apache Spark",
    [ ⟨"version", "Spark Version", "select", true, some (JsValue.str "3.5.1"), none⟩,
      ⟨"cluster_name", "Cluster Name", "text", true, some (JsValue.str "SparkProd"), none⟩,
      ⟨"min_workers", "Minimum number of worker nodes", "number", true,
        some (JsValue.num 1), none⟩,
      ⟨"max_workers", "Maximum number of worker nodes", "number", true,
        some (JsValue.num 3), none⟩ ], []⟩

def prefectApp : Application := ⟨4, "prefect", "Prefect", [], []⟩

def applications : List Application := [airflowApp, grafanaApp, sparkApp, prefectApp]

/-- The enhanced Airflow option list of the deploy module
(appConfigs/airflow.tsx): five custom-image options, the last four visible
only when `use_custom_image === true`, followed by the catalog options. -/
def enhancedConfigOptions : List ConfigOption :=
  [ ⟨"use_custom_image", "Use Custom Image", "boolean", false, some (JsValue.bool false), none⟩,
    ⟨"private_registry_url", "Private Registry URL", "text", false, none,
      some ("use_custom_image", JsValue.bool true)⟩,
    ⟨"private_registry_username", "Registry Username", "text", false, none,
      some ("use_custom_image", JsValue.bool true)⟩,
    ⟨"private_registry_password", "Registry Password", "text", false, none,
      some ("use_custom_image", JsValue.bool true)⟩,
    ⟨"private_registry_image_tag", "Image Tag", "text", false, none,
      some ("use_custom_image", JsValue.bool true)⟩ ]
  ++ airflowCatalogOptions

/-! ## Validation helpers
(`validateAirflowConfig` in appConfigs/airflow.tsx lines 80–118,
`validateApplicationConfig` and `shouldShowConfigOption` in
utils/applicationConfig.ts) -/

/-- `config[option.id] === undefined || config[option.id] === ""` — the
strict missing test of the required-field rule. -/
def jsMissingStrict (v : Option JsValue) : Bool :=
  v = none || v = some (JsValue.str "")

/-- `shouldShowConfigOption`: the conditional visibility predicate,
evaluated with strict equality against the same config mapping. -/
def shouldShowConfigOption (option : ConfigOption) (config : JsConfig) : Bool :=
  match option.conditional with
  | some cond => jsGet config cond.fst = some cond.snd
  | none => true

/-- The body of the `enhancedConfigOptions.forEach` loop of
`validateAirflowConfig`: the entry this option contributes to `missing`
(`none` when the option is skipped or satisfied). -/
def airflowOptionMissing (config : JsConfig) (option : ConfigOption) : Option String :=
  match option.conditional with
  | some cond =>
      -- "Skip conditional fields that aren't required based on their condition"
      if jsGet config cond.fst = some cond.snd then
        airflowOptionCheck config option
      else none
  | none => airflowOptionCheck config option
where
  airflowOptionCheck (config : JsConfig) (option : ConfigOption) : Option String :=
    -- "Skip version field if custom image is enabled"
    if option.id = "version" && jsTruthy (jsGet config "use_custom_image") then none
    -- "Skip SSH key if repo is not private"
    else if option.id = "airflowSshKey" && !jsTruthy (jsGet config "airflowRepoPrivate") then
      none
    -- "For custom image, require registry URL if enabled"
    else if jsTruthy (jsGet config "use_custom_image") && option.id = "private_registry_url"
        && !jsTruthy (jsGet config option.id) then
      some option.name
    else if option.required && jsMissingStrict (jsGet config option.id) then
      some option.name
    else none

/-- The `missing` list computed by `validateAirflowConfig`; the function
returns `true` (valid) exactly when this list is empty. -/
def validateAirflowConfigMissing (config : JsConfig) : List String :=
  (if !jsTruthy (jsGet config "deployment_name") then ["Deployment Name"] else [])
    ++ enhancedConfigOptions.filterMap (airflowOptionMissing config)

/-- The body of the `app.configOptions.forEach` loop of
`validateApplicationConfig`. -/
def appOptionMissing (config : JsConfig) (option : ConfigOption) : Option String :=
  if option.required && jsMissingStrict (jsGet config option.id) then some option.name
  else none

/-- `/^(https?:\/\/|git@)/.test(repoUrl)` on a dynamic value; a boolean or
number coerces to a string that never matches. -/
def validGitUrlTest (v : JsValue) : Bool :=
  match v with
  | JsValue.str s =>
      ("http://".data.isPrefixOf s.data) || ("https://".data.isPrefixOf s.data)
        || ("git@".data.isPrefixOf s.data)
  | _ => false

/-- The `missing` list computed by the generic `validateApplicationConfig`
(required options, then the Airflow DAG-repo URL rule, then the Airflow
custom-image rule on the `custom_image_*` keys). -/
def validateApplicationConfigMissing (app : Application) (config : JsConfig) : List String :=
  app.configOptions.filterMap (appOptionMissing config)
    ++ (if app.short_name = "airflow" && jsTruthy (jsGet config "dags_repository") then
          (if !(match jsGet config "dags_repository" with
                | some v => validGitUrlTest v
                | none => false) then
            ["Valid DAGs Git Repository URL (must start with https://, http://, or git@)"]
          else [])
        else [])
    ++ (if app.short_name = "airflow" && jsTruthy (jsGet config "use_custom_image") then
          (if !jsTruthy (jsGet config "custom_image_registry_url") then
            ["Private Registry URL"] else [])
            ++ (if !jsTruthy (jsGet config "custom_image_tag") then ["Image Tag"] else [])
        else [])

example : validateAirflowConfigMissing [] =
    ["Deployment Name", "Airflow Version", "Executor", "Instance Name",
     "DAGs Git Repository URL", "Branch Name", "DAG Folder Name"] := by decide

/-- An option only ever contributes its own display name to `missing`. -/
theorem airflowOptionMissing_name (config : JsConfig) (o : ConfigOption) (n : String)
    (h : airflowOptionMissing config o = some n) : n = o.name := by
  unfold airflowOptionMissing airflowOptionMissing.airflowOptionCheck at h
  repeat split at h
  all_goals try simp_all
  all_goals try (obtain ⟨-, h⟩ := h)
  all_goals try (obtain ⟨-, h⟩ := h)
  all_goals repeat split at h
  all_goals simp_all

/-- An option whose conditional is not satisfied is skipped outright. -/
theorem airflowOptionMissing_skip (config : JsConfig) (o : ConfigOption)
    (cond : String × JsValue) (hc : o.conditional = some cond)
    (h : ¬(jsGet config cond.fst = some cond.snd)) :
    airflowOptionMissing config o = none := by
  unfold airflowOptionMissing
  rw [hc]
  simp [h]

theorem mem_deploymentNamePart (config : JsConfig) (n : String)
    (h : n ∈ (if !jsTruthy (jsGet config "deployment_name")
      then ["Deployment Name"] else [])) : n = "Deployment Name" := by
  split at h <;> simp_all

/-- The generic helper reports an option's name only when that option is
required. -/
theorem appOptionMissing_name (config : JsConfig) (o : ConfigOption) (n : String)
    (h : appOptionMissing config o = some n) : n = o.name ∧ o.required = true := by
  unfold appOptionMissing at h
  split at h <;> simp_all

set_option maxRecDepth 4000

/-- C7: for every config mapping, an option carrying a conditional whose
predicate (`shouldShowConfigOption`) is not satisfied by that mapping is
never reported as missing — neither by the Airflow deploy-module validator
over the enhanced option list, nor by the generic
`validateApplicationConfig` over any catalog application. -/
theorem c7_hidden_option_never_reported :
    (∀ (config : JsConfig) (opt : ConfigOption), opt ∈ enhancedConfigOptions →
      shouldShowConfigOption opt config = false →
      opt.name ∉ validateAirflowConfigMissing config)
    ∧ (∀ (app : Application) (config : JsConfig) (opt : ConfigOption),
      app ∈ applications → opt ∈ app.configOptions →
      shouldShowConfigOption opt config = false →
      opt.name ∉ validateApplicationConfigMissing app config) := by
  constructor
  · intro config opt hmem hshow habs
    simp only [enhancedConfigOptions, airflowCatalogOptions, List.mem_append,
      List.mem_cons, List.not_mem_nil, or_false] at hmem
    rcases hmem with (rfl|rfl|rfl|rfl|rfl)|(rfl|rfl|rfl|rfl|rfl|rfl|rfl|rfl|rfl|rfl)
    all_goals simp [shouldShowConfigOption] at hshow
    all_goals (
      unfold validateAirflowConfigMissing at habs;
      rw [List.mem_append] at habs;
      rcases habs with h1 | h2
      · exact absurd (mem_deploymentNamePart _ _ h1) (by decide)
      · rw [List.mem_filterMap] at h2
        obtain ⟨o, ho, hsome⟩ := h2
        have hname := airflowOptionMissing_name config o _ hsome
        simp only [enhancedConfigOptions, airflowCatalogOptions, List.mem_append,
          List.mem_cons, List.not_mem_nil, or_false] at ho
        rcases ho with (rfl|rfl|rfl|rfl|rfl)|(rfl|rfl|rfl|rfl|rfl|rfl|rfl|rfl|rfl|rfl)
        all_goals first
          | exact absurd hname (by decide)
          | exact absurd hsome (by
              rw [airflowOptionMissing_skip config _ _ rfl hshow]; simp))
  · intro app config opt happ hmem hshow habs
    simp only [applications, List.mem_cons, List.not_mem_nil, or_false] at happ
    rcases happ with rfl|rfl|rfl|rfl
    · -- airflow: only the SSH-key option is conditional, and it is not required
      simp only [airflowApp, airflowCatalogOptions, List.mem_cons,
        List.not_mem_nil, or_false] at hmem
      rcases hmem with rfl|rfl|rfl|rfl|rfl|rfl|rfl|rfl|rfl|rfl
      all_goals simp [shouldShowConfigOption] at hshow
      unfold validateApplicationConfigMissing at habs
      simp only [List.mem_append] at habs
      rcases habs with (h1 | h2) | h3
      · rw [List.mem_filterMap] at h1
        obtain ⟨o, ho, hsome⟩ := h1
        have hname := appOptionMissing_name config o _ hsome
        simp only [airflowApp, airflowCatalogOptions, List.mem_cons,
          List.not_mem_nil, or_false] at ho
        rcases ho with rfl|rfl|rfl|rfl|rfl|rfl|rfl|rfl|rfl|rfl
        all_goals first
          | exact absurd hname.1 (by decide)
          | exact absurd hname.2 (by decide)
      · repeat split at h2
        all_goals simp_all
      · repeat split at h3
        all_goals simp_all [List.mem_append]
    · simp [grafanaApp] at hmem
    · simp only [sparkApp, List.mem_cons, List.not_mem_nil, or_false] at hmem
      rcases hmem with rfl|rfl|rfl|rfl <;> simp [shouldShowConfigOption] at hshow
    · simp [prefectApp] at hmem

/-- Witness for C7 at a concrete input: with `use_custom_image` absent, the
hidden `private_registry_url` option is not reported; with the repo-private
conditional unsatisfied, the generic helper does not report the SSH key. -/
theorem c7_hidden_option_never_reported_witness :
    "Private Registry URL" ∉ validateAirflowConfigMissing []
    ∧ "SSH Private Key" ∉ validateApplicationConfigMissing airflowApp [] := by
  constructor
  · exact c7_hidden_option_never_reported.1 []
      ⟨"private_registry_url", "Private Registry URL", "text", false, none,
        some ("use_custom_image", JsValue.bool true)⟩
      (by decide) (by decide)
  · exact c7_hidden_option_never_reported.2 airflowApp []
      ⟨"dags_repository_ssh_private_key", "SSH Private Key", "text", false,
        some (JsValue.str ""), some ("dags_repository_ssh_private_key", JsValue.bool true)⟩
      (by decide) (by decide) (by decide)

/-! ## C8: custom-image validation -/

/-- An Airflow config with `use_custom_image == true`, every required field
filled, the registry URL set, and both `version` and the image tag absent. -/
def customImageNoTagConfig : JsConfig :=
  [ ("deployment_name", JsValue.str "my-airflow"),
    ("executor", JsValue.str "CeleryExecutor"),
    ("instance_name", JsValue.str "Airflow"),
    ("dags_repository", JsValue.str "https://github.com/acme/dags"),
    ("dags_repository_branch", JsValue.str "main"),
    ("dags_repository_subpath", JsValue.str "dags"),
    ("use_custom_image", JsValue.bool true),
    ("private_registry_url", JsValue.str "registry.example.com/airflow") ]

/-- C8: with `use_custom_image == true` the validator invoked at submission
(`validateAirflowConfig`) ignores the `version` field and reports the
registry URL when it is absent — but it never reports the image tag: on
`customImageNoTagConfig`, where the tag (and `version`) are absent, the
missing list is empty and the config validates, contradicting the claim
that the tag is reported missing whenever empty or absent. -/
theorem c8_image_tag_never_reported :
    jsGet customImageNoTagConfig "use_custom_image" = some (JsValue.bool true)
    ∧ jsGet customImageNoTagConfig "private_registry_image_tag" = none
    ∧ jsGet customImageNoTagConfig "version" = none
    ∧ validateAirflowConfigMissing customImageNoTagConfig = []
    ∧ "Private Registry URL" ∈ validateAirflowConfigMissing
        (customImageNoTagConfig.filter (fun kv => kv.fst ≠ "private_registry_url")) := by
  decide

/-! ## Store entities (src/frontend/src/types/index.ts, continued) -/

structure Autoscaling where
  enabled : Bool
  minNodes : Int
  maxNodes : Int
deriving DecidableEq

/-- A node pool (`NodePool` in types/index.ts); `region` and `autoscaling`
are optional in the TypeScript type. -/
structure NodePool where
  id : String
  name : String
  nodeType : NodeType
  count : Int
  region : Option Region := none
  autoscaling : Option Autoscaling := none
deriving DecidableEq

structure DeploymentVolume where
  volumeName : String
deriving DecidableEq

structure Deployment where
  id : String
  name : String
  application : Application
  status : stateEnum
  config : JsConfig := []
  nodePool : String := ""
  volumes : List DeploymentVolume := []
  accessEndpoints : List AccessEndpointConfig := []
deriving DecidableEq

structure Cluster where
  id : String
  name : String
  provider : Provider
  status : stateEnum
  controlPlane : NodePool
  nodePools : List NodePool := []
  domainName : Option String := none
  deployments : List Deployment := []
deriving DecidableEq

/-- The Zustand store state slices the claims touch. -/
structure StoreState where
  clusters : List Cluster
  volumes : List Volume
deriving DecidableEq

/-! ## deleteVolume (store, part_005 lines 792–836)

The store sets the volume's status to `DELETING`, calls the API, and then
either (success path, after a 3 s timer) removes the volume from the state
or (failure path) maps the status back to `RUNNING` — not `FAILED`; the
error reaches only a toast notification, never the entity. -/

def deleteVolumeStart (volumes : List Volume) (volumeId : String) : List Volume :=
  volumes.map (fun vol =>
    if vol.id = volumeId then { vol with status := stateEnum.deleting } else vol)

def deleteVolumeSuccess (volumes : List Volume) (volumeId : String) : List Volume :=
  volumes.filter (fun vol => vol.id ≠ volumeId)

def deleteVolumeFailure (volumes : List Volume) (volumeId : String) : List Volume :=
  volumes.map (fun vol =>
    if vol.id = volumeId then { vol with status := stateEnum.running } else vol)

/-- The whole `deleteVolume` run, with `ok` the outcome of the API call;
an unknown id returns the state unchanged ("Volume not found"). -/
def deleteVolumeRun (ok : Bool) (volumes : List Volume) (volumeId : String) : List Volume :=
  match volumes.find? (fun v => v.id = volumeId) with
  | none => volumes
  | some _ =>
      let started := deleteVolumeStart volumes volumeId
      if ok then deleteVolumeSuccess started volumeId
      else deleteVolumeFailure started volumeId

/-! ## deleteCluster (store, part_005 lines 276–337) -/

def deleteClusterStart (clusters : List Cluster) (clusterId : String) : List Cluster :=
  clusters.map (fun c =>
    if c.id = clusterId then { c with status := stateEnum.deleting } else c)

def deleteClusterSuccess (clusters : List Cluster) (clusterId : String) : List Cluster :=
  clusters.filter (fun c => c.id ≠ clusterId)

def deleteClusterFailure (clusters : List Cluster) (clusterId : String) : List Cluster :=
  clusters.map (fun c =>
    if c.id = clusterId then { c with status := stateEnum.failed } else c)

/-- The whole `deleteCluster` run, with `ok` the outcome of the API call;
the removal (success path) happens after an 8 s timer, the failure path
maps the status to `FAILED`. -/
def deleteClusterRun (ok : Bool) (clusters : List Cluster) (clusterId : String) : List Cluster :=
  let started := deleteClusterStart clusters clusterId
  if ok then deleteClusterSuccess started clusterId
  else deleteClusterFailure started clusterId

def demoVolume : Volume :=
  ⟨"vol-1", "data", 50, "hetzner", "fsn1", stateEnum.running, "2025-01-01", none, none⟩

/-- C3 counterexample: a failed volume delete leaves the volume with status
`running`, not `failed` — the claim's failure clause is false for volumes. -/
theorem c3_counterexample :
    (deleteVolumeRun false [demoVolume] "vol-1").map Volume.status = [stateEnum.running]
    ∧ stateEnum.running ≠ stateEnum.failed := by
  decide

/-- C3 (amended): starting a delete sets the entity's status to `deleting`;
the entity is removed from the state only on the success path (and then no
entity with the deleted id remains); on the failure path a cluster's status
becomes `failed` but a volume's status reverts to `running` (in both cases
the error is surfaced in a toast, not stored on the entity). -/
theorem c3_delete_lifecycle :
    (∀ (volumes : List Volume) (volumeId : String),
      ∀ v ∈ deleteVolumeStart volumes volumeId, v.id = volumeId →
        v.status = stateEnum.deleting)
    ∧ (∀ (volumes : List Volume) (volumeId : String),
      ∀ v ∈ deleteVolumeRun true volumes volumeId, v.id ≠ volumeId)
    ∧ (∀ (volumes : List Volume) (volumeId : String),
      ∀ v ∈ deleteVolumeRun false volumes volumeId, v.id = volumeId →
        v.status = stateEnum.running)
    ∧ (∀ (clusters : List Cluster) (clusterId : String),
      ∀ c ∈ deleteClusterStart clusters clusterId, c.id = clusterId →
        c.status = stateEnum.deleting)
    ∧ (∀ (clusters : List Cluster) (clusterId : String),
      ∀ c ∈ deleteClusterRun true clusters clusterId, c.id ≠ clusterId)
    ∧ (∀ (clusters : List Cluster) (clusterId : String),
      ∀ c ∈ deleteClusterRun false clusters clusterId, c.id = clusterId →
        c.status = stateEnum.failed) := by
  refine ⟨?_, ?_, ?_, ?_, ?_, ?_⟩
  · intro volumes volumeId v hv hid
    rw [deleteVolumeStart, List.mem_map] at hv
    obtain ⟨u, -, rfl⟩ := hv
    by_cases h : u.id = volumeId <;> simp_all
  · intro volumes volumeId v hv
    rw [deleteVolumeRun] at hv
    cases hfind : volumes.find? (fun v => decide (v.id = volumeId)) with
    | none =>
        rw [hfind] at hv
        rw [List.find?_eq_none] at hfind
        simpa using hfind v hv
    | some u =>
        rw [hfind] at hv
        simp only [if_true] at hv
        rw [deleteVolumeSuccess, List.mem_filter] at hv
        simpa using hv.2
  · intro volumes volumeId v hv hid
    rw [deleteVolumeRun] at hv
    cases hfind : volumes.find? (fun v => decide (v.id = volumeId)) with
    | none =>
        rw [hfind] at hv
        rw [List.find?_eq_none] at hfind
        exact absurd hid (by simpa using hfind v hv)
    | some u =>
        rw [hfind] at hv
        simp only [if_false, Bool.false_eq_true] at hv
        rw [deleteVolumeFailure, List.mem_map] at hv
        obtain ⟨w, -, rfl⟩ := hv
        by_cases h : w.id = volumeId <;> simp_all
  · intro clusters clusterId c hc hid
    rw [deleteClusterStart, List.mem_map] at hc
    obtain ⟨u, -, rfl⟩ := hc
    by_cases h : u.id = clusterId <;> simp_all
  · intro clusters clusterId c hc
    rw [deleteClusterRun] at hc
    simp only [if_true] at hc
    rw [deleteClusterSuccess, List.mem_filter] at hc
    simpa using hc.2
  · intro clusters clusterId c hc hid
    rw [deleteClusterRun] at hc
    simp only [if_false, Bool.false_eq_true] at hc
    rw [deleteClusterFailure, List.mem_map] at hc
    obtain ⟨u, -, rfl⟩ := hc
    by_cases h : u.id = clusterId <;> simp_all

def demoNodeType : NodeType := ⟨"cx22", "CX22"⟩

def demoRegion : Region := ⟨"fsn1", "Falkenstein"⟩

def demoProvider : Provider := ⟨"hetzner", "Hetzner Cloud", [demoRegion], [demoNodeType]⟩

def demoControlPlane : NodePool :=
  ⟨"control-plane", "control-plane", demoNodeType, 1, some demoRegion, none⟩

def demoDeployment : Deployment :=
  ⟨"d1", "Grafana Deployment", grafanaApp, stateEnum.running, [], "default-pool",
    [⟨"v1"⟩], []⟩

def demoCluster : Cluster :=
  ⟨"c1", "prod", demoProvider, stateEnum.running, demoControlPlane, [], none,
    [demoDeployment]⟩

/-- Witness for the amended C3 at concrete inputs: starting a volume delete
marks it `deleting`, a failed volume delete leaves it `running`, a failed
cluster delete leaves the cluster `failed`. -/
theorem c3_delete_lifecycle_witness :
    ({ demoVolume with status := stateEnum.deleting } : Volume).status = stateEnum.deleting
    ∧ ({ demoVolume with status := stateEnum.running } : Volume).status = stateEnum.running
    ∧ ({ demoCluster with status := stateEnum.failed } : Cluster).status = stateEnum.failed := by
  refine ⟨?_, ?_, ?_⟩
  · exact c3_delete_lifecycle.1 [demoVolume] "vol-1"
      { demoVolume with status := stateEnum.deleting } (by decide) (by decide)
  · exact c3_delete_lifecycle.2.2.1 [demoVolume] "vol-1"
      { demoVolume with status := stateEnum.running } (by decide) (by decide)
  · exact c3_delete_lifecycle.2.2.2.2.2 [demoCluster] "c1"
      { demoCluster with status := stateEnum.failed } (by decide) (by decide)

/-! ## createDeployment volume binding (store, part_005 lines 362–416)

The `volumes.forEach` loop of `createDeployment`: a selection with a truthy
name that matches an existing volume marks that volume `inUse: true`; with
a falsy name the loop would create a new volume (already `inUse: true`)
when a volume requirement matches the falsy name — the random id/name
suffixes of that branch are abstracted by fixed placeholder strings. -/

structure VolumeSelection where
  name : String
  volume_type : String
  size : Int
deriving DecidableEq

def applyVolumeSelection (application : Application) (currentCluster : Option Cluster)
    (volumes : List Volume) (sel : VolumeSelection) : List Volume :=
  if sel.name ≠ "" then
    match volumes.find? (fun v => v.name = sel.name) with
    | some _ =>
        volumes.map (fun v =>
          if v.name = sel.name then { v with inUse := some true } else v)
    | none => volumes
  else
    match application.volumeRequirements.find? (fun vr => vr.name = sel.name),
        currentCluster with
    | some volumeRequirement, some cluster =>
        volumes ++ [{ id := "vol-new", name := application.name ++ "-new",
                      size := if sel.size ≠ 0 then sel.size else volumeRequirement.defaultSize,
                      provider := cluster.provider.name,
                      region := (cluster.controlPlane.region.map Region.id).getD "",
                      status := stateEnum.creating,
                      createdAt := "",
                      description := some volumeRequirement.description,
                      inUse := some true }]
    | _, _ => volumes

def createDeploymentVolumesUpdate (application : Application)
    (currentCluster : Option Cluster) (volumes : List Volume)
    (sels : List VolumeSelection) : List Volume :=
  sels.foldl (applyVolumeSelection application currentCluster) volumes

/-! ## deleteDeployment state update (store, part_005 lines 596–650)

When the deployment exists, the store removes it from its cluster's
deployment list and calls the API; the `volumes` slice is not touched — no
`inUse` marking is cleared. -/

def deleteDeploymentUpdate (st : StoreState) (clusterId deploymentId : String) : StoreState :=
  let cluster := st.clusters.find? (fun c => c.id = clusterId)
  match cluster.bind (fun c => c.deployments.find? (fun d => d.id = deploymentId)) with
  | none => st
  | some _ =>
      { st with clusters := st.clusters.map (fun c =>
          if c.id = clusterId then
            { c with deployments := c.deployments.filter (fun d => d.id ≠ deploymentId) }
          else c) }

def demoStore : StoreState :=
  ⟨[demoCluster], [{ demoVolume with name := "v1", inUse := some true }]⟩

/-- C4 counterexample: after deleting the only deployment binding volume
`"v1"`, no deployment references the volume any more, yet its `inUse` flag
is still `true` — the store never clears in-use markings on deployment
deletion, so `in_use` does not equal "some deployment binds the volume". -/
theorem c4_counterexample :
    (∀ c ∈ (deleteDeploymentUpdate demoStore "c1" "d1").clusters,
      ∀ d ∈ c.deployments, (⟨"v1"⟩ : DeploymentVolume) ∉ d.volumes)
    ∧ (deleteDeploymentUpdate demoStore "c1" "d1").volumes = demoStore.volumes
    ∧ (deleteDeploymentUpdate demoStore "c1" "d1").volumes.map Volume.inUse = [some true] := by
  decide

/-- Along the volume-binding fold, every volume already marked in-use under
a given name stays marked, and a name present among the volumes stays
present. -/
theorem applyVolumeSelection_preserves (application : Application)
    (currentCluster : Option Cluster) (volumes : List Volume)
    (sel : VolumeSelection) (nm : String) :
    ((∀ v ∈ volumes, v.name = nm → v.inUse = some true) →
      ∀ v ∈ applyVolumeSelection application currentCluster volumes sel,
        v.name = nm → v.inUse = some true)
    ∧ ((∃ v ∈ volumes, v.name = nm) →
      ∃ v ∈ applyVolumeSelection application currentCluster volumes sel, v.name = nm) := by
  constructor
  · intro hinv v hv hnm
    unfold applyVolumeSelection at hv
    split at hv
    · cases hfind : volumes.find? (fun v => decide (v.name = sel.name)) with
      | none => rw [hfind] at hv; exact hinv v hv hnm
      | some u =>
          rw [hfind] at hv
          rw [List.mem_map] at hv
          obtain ⟨w, hw, rfl⟩ := hv
          by_cases h : w.name = sel.name
          · rw [if_pos h]
          · rw [if_neg h] at hnm ⊢
            exact hinv w hw hnm
    · split at hv
      · rw [List.mem_append] at hv
        rcases hv with hv | hv
        · exact hinv v hv hnm
        · simp only [List.mem_singleton] at hv
          subst hv
          rfl
      · exact hinv v hv hnm
  · rintro ⟨v, hv, hnm⟩
    unfold applyVolumeSelection
    split
    · cases hfind : volumes.find? (fun v => decide (v.name = sel.name)) with
      | none => exact ⟨v, hv, hnm⟩
      | some u =>
          by_cases h : v.name = sel.name
          · exact ⟨{ v with inUse := some true }, List.mem_map.mpr ⟨v, hv, by simp [h]⟩, hnm⟩
          · exact ⟨v, List.mem_map.mpr ⟨v, hv, by simp [h]⟩, hnm⟩
    · split
      · exact ⟨v, List.mem_append.mpr (Or.inl hv), hnm⟩
      · exact ⟨v, hv, hnm⟩

/-- A selection with a truthy name matching an existing volume marks every
volume of that name in-use. -/
theorem applyVolumeSelection_marks (application : Application)
    (currentCluster : Option Cluster) (volumes : List Volume)
    (sel : VolumeSelection) (nm : String) (hname : sel.name = nm) (hne : nm ≠ "")
    (hex : ∃ v ∈ volumes, v.name = nm) :
    ∀ v ∈ applyVolumeSelection application currentCluster volumes sel,
      v.name = nm → v.inUse = some true := by
  intro v hv hnm
  have hcond : sel.name ≠ "" := by rw [hname]; exact hne
  unfold applyVolumeSelection at hv
  rw [if_pos hcond] at hv
  obtain ⟨u, hu, hun⟩ := hex
  cases hfind : volumes.find? (fun v => decide (v.name = sel.name)) with
  | none =>
      rw [List.find?_eq_none] at hfind
      exact absurd (by rw [hun, hname] : u.name = sel.name) (by simpa using hfind u hu)
  | some w =>
      rw [hfind] at hv
      rw [List.mem_map] at hv
      obtain ⟨x, hx, rfl⟩ := hv
      by_cases h : x.name = sel.name
      · rw [if_pos h]
      · rw [if_neg h] at hnm ⊢
        exact absurd (hnm.trans hname.symm) h

theorem foldl_selection_preserve (application : Application)
    (currentCluster : Option Cluster) (nm : String) :
    ∀ (sels : List VolumeSelection) (volumes : List Volume),
      (∀ v ∈ volumes, v.name = nm → v.inUse = some true) →
      ∀ v ∈ sels.foldl (applyVolumeSelection application currentCluster) volumes,
        v.name = nm → v.inUse = some true := by
  intro sels
  induction sels with
  | nil => intro volumes h v hv; exact h v hv
  | cons s ss ih =>
      intro volumes h
      exact ih _
        ((applyVolumeSelection_preserves application currentCluster volumes s nm).1 h)

/-- C4 (amended): creating a deployment that binds an existing volume marks
that volume `inUse = true` (and the marking survives the rest of the
binding loop); deleting a deployment leaves the store's `volumes` slice —
and hence every in-use marking — completely unchanged, instead of clearing
the markings of the volumes the deployment bound. -/
theorem c4_in_use_marking :
    (∀ (application : Application) (currentCluster : Option Cluster)
        (sels : List VolumeSelection) (volumes : List Volume) (nm : String),
      nm ≠ "" → (∃ sel ∈ sels, sel.name = nm) → (∃ v ∈ volumes, v.name = nm) →
      ∀ v ∈ createDeploymentVolumesUpdate application currentCluster volumes sels,
        v.name = nm → v.inUse = some true)
    ∧ (∀ (st : StoreState) (clusterId deploymentId : String),
      (deleteDeploymentUpdate st clusterId deploymentId).volumes = st.volumes) := by
  constructor
  · intro application currentCluster sels
    induction sels with
    | nil =>
        rintro volumes nm - ⟨s, hs, -⟩
        simp at hs
    | cons s ss ih =>
        rintro volumes nm hne ⟨t, ht, htn⟩ hex
        rw [createDeploymentVolumesUpdate, List.foldl_cons]
        rcases List.mem_cons.mp ht with rfl | htss
        · exact foldl_selection_preserve application currentCluster nm ss _
            (applyVolumeSelection_marks application currentCluster volumes t nm
              htn hne hex)
        · exact ih _ nm hne ⟨t, htss, htn⟩
            ((applyVolumeSelection_preserves application currentCluster volumes s nm).2 hex)
  · intro st clusterId deploymentId
    unfold deleteDeploymentUpdate
    cases hm : (st.clusters.find? (fun c => decide (c.id = clusterId))).bind
        (fun c => c.deployments.find? (fun d => decide (d.id = deploymentId))) with
    | none => simp only [hm]
    | some d => simp only [hm]

/-- Witness for the amended C4 at concrete inputs: binding the existing
volume `"v1"` marks it in-use, and deleting the deployment leaves the
volume slice unchanged. -/
theorem c4_in_use_marking_witness :
    ({ demoVolume with name := "v1", inUse := some true } : Volume).inUse = some true
    ∧ (deleteDeploymentUpdate demoStore "c1" "d1").volumes = demoStore.volumes := by
  constructor
  · exact c4_in_use_marking.1 grafanaApp none [⟨"v1", "existing", 0⟩]
      [{ demoVolume with name := "v1" }] "v1" (by decide) (by decide) (by decide)
      { demoVolume with name := "v1", inUse := some true } (by decide) (by decide)
  · exact c4_in_use_marking.2 demoStore "c1" "d1"

/-! ## Worker-pool sizing handlers
(CreateClusterModal.tsx: `handleNodeCountChange` lines 279–288,
`handleMinNodesChange` / `handleMaxNodesChange` lines 341–381, and
`handleAutoscalingToggle` lines 320–338) -/

def handleNodeCountChange (nodePools : List NodePool) (poolId : String)
    (count : Int) : List NodePool :=
  let count1 := if count < 1 then 1 else count
  let count2 := if count1 > 20 then 20 else count1
  nodePools.map (fun pool =>
    if pool.id = poolId then { pool with count := count2 } else pool)

def handleMinNodesChange (nodePools : List NodePool) (poolId : String)
    (minNodes : Int) : List NodePool :=
  let m1 := if minNodes < 0 then 0 else minNodes
  let m2 := if m1 > 10 then 10 else m1
  nodePools.map (fun pool =>
    match pool.autoscaling with
    | some a =>
        if pool.id = poolId then
          -- "Ensure minNodes doesn't exceed maxNodes"
          { pool with autoscaling := some { a with minNodes := min m2 a.maxNodes } }
        else pool
    | none => pool)

def handleMaxNodesChange (nodePools : List NodePool) (poolId : String)
    (maxNodes : Int) : List NodePool :=
  let m1 := if maxNodes < 1 then 1 else maxNodes
  let m2 := if m1 > 10 then 10 else m1
  nodePools.map (fun pool =>
    match pool.autoscaling with
    | some a =>
        if pool.id = poolId then
          -- "Ensure maxNodes isn't less than minNodes"
          { pool with autoscaling := some { a with maxNodes := max m2 a.minNodes } }
        else pool
    | none => pool)

def handleAutoscalingToggle (nodePools : List NodePool) (poolId : String)
    (enabled : Bool) : List NodePool :=
  nodePools.map (fun pool =>
    if pool.id = poolId then
      let toggled : Autoscaling :=
        ⟨enabled, if enabled then 1 else 0, if enabled then max pool.count 2 else 1⟩
      { pool with autoscaling := some toggled }
    else pool)

/-- The bounds of the claim for one autoscaling range. -/
def autoscalingBounds (a : Autoscaling) : Prop :=
  0 ≤ a.minNodes ∧ a.minNodes ≤ 10 ∧ 1 ≤ a.maxNodes ∧ a.maxNodes ≤ 10
    ∧ a.minNodes ≤ a.maxNodes

instance (a : Autoscaling) : Decidable (autoscalingBounds a) := by
  unfold autoscalingBounds; exact inferInstance

/-- The bounds of the claim for one worker pool's sizing. -/
def poolSizingBounds (pool : NodePool) : Prop :=
  1 ≤ pool.count ∧ pool.count ≤ 20 ∧
    match pool.autoscaling with
    | some a => autoscalingBounds a
    | none => True

instance (pool : NodePool) : Decidable (poolSizingBounds pool) := by
  unfold poolSizingBounds
  cases h : pool.autoscaling <;> exact inferInstance

def widePool : NodePool :=
  ⟨"p1", "workers", demoNodeType, 15, some demoRegion, some ⟨false, 0, 1⟩⟩

/-- C9 counterexample: enabling autoscaling on a pool with 15 nodes — a
state satisfying every bound of the claim — stores an autoscaling maximum
of 15, outside [1, 10]. -/
theorem c9_counterexample :
    poolSizingBounds widePool
    ∧ handleAutoscalingToggle [widePool] "p1" true
        = [{ widePool with autoscaling := some ⟨true, 1, 15⟩ }]
    ∧ ¬ autoscalingBounds ⟨true, 1, 15⟩ := by
  decide

theorem poolSizingBounds_setCount (q : NodePool) (c : Int) (h1 : 1 ≤ c) (h2 : c ≤ 20)
    (hq : poolSizingBounds q) : poolSizingBounds { q with count := c } := by
  unfold poolSizingBounds at hq ⊢
  exact ⟨h1, h2, hq.2.2⟩

theorem poolSizingBounds_setAutoscaling (q : NodePool) (a : Autoscaling)
    (hq : poolSizingBounds q) (ha : autoscalingBounds a) :
    poolSizingBounds { q with autoscaling := some a } := by
  unfold poolSizingBounds at hq ⊢
  exact ⟨hq.1, hq.2.1, ha⟩

theorem autoscalingBounds_mk (e : Bool) (mn mx : Int) (h1 : 0 ≤ mn) (h2 : mn ≤ 10)
    (h3 : 1 ≤ mx) (h4 : mx ≤ 10) (h5 : mn ≤ mx) :
    autoscalingBounds ⟨e, mn, mx⟩ :=
  ⟨h1, h2, h3, h4, h5⟩

theorem poolSizingBounds_autoscaling (q : NodePool) (a : Autoscaling)
    (hq : poolSizingBounds q) (heq : q.autoscaling = some a) : autoscalingBounds a := by
  unfold poolSizingBounds at hq
  have h := hq.2.2
  rw [heq] at h
  exact h

/-- C9 (amended): the three sizing-change handlers preserve the bounds —
node count clamped into [1, 20], autoscaling minimum into [0, 10] and
capped by the maximum, autoscaling maximum into [1, 10] and floored by the
minimum, so min ≤ max is maintained.  The autoscaling toggle, however,
stores `max(count, 2)` as the maximum and therefore preserves the bounds
only for pools whose count is at most 10 (the counterexample shows it
violating them at count 15). -/
theorem c9_sizing_bounds :
    (∀ (nodePools : List NodePool) (poolId : String) (count : Int),
      (∀ p ∈ nodePools, poolSizingBounds p) →
      ∀ p ∈ handleNodeCountChange nodePools poolId count, poolSizingBounds p)
    ∧ (∀ (nodePools : List NodePool) (poolId : String) (minNodes : Int),
      (∀ p ∈ nodePools, poolSizingBounds p) →
      ∀ p ∈ handleMinNodesChange nodePools poolId minNodes, poolSizingBounds p)
    ∧ (∀ (nodePools : List NodePool) (poolId : String) (maxNodes : Int),
      (∀ p ∈ nodePools, poolSizingBounds p) →
      ∀ p ∈ handleMaxNodesChange nodePools poolId maxNodes, poolSizingBounds p)
    ∧ (∀ (nodePools : List NodePool) (poolId : String) (enabled : Bool),
      (∀ p ∈ nodePools, poolSizingBounds p) →
      (∀ p ∈ nodePools, p.id = poolId → p.count ≤ 10) →
      ∀ p ∈ handleAutoscalingToggle nodePools poolId enabled, poolSizingBounds p) := by
  refine ⟨?_, ?_, ?_, ?_⟩
  · intro nodePools poolId count hinv p hp
    simp only [handleNodeCountChange, List.mem_map] at hp
    obtain ⟨q, hq, rfl⟩ := hp
    have hq' := hinv q hq
    split
    · exact poolSizingBounds_setCount q _ (by split_ifs <;> omega)
        (by split_ifs <;> omega) hq'
    · exact hq'
  · intro nodePools poolId minNodes hinv p hp
    simp only [handleMinNodesChange, List.mem_map] at hp
    obtain ⟨q, hq, rfl⟩ := hp
    have hq' := hinv q hq
    split
    · rename_i a heq
      split
      · have hb := poolSizingBounds_autoscaling q a hq' heq
        unfold autoscalingBounds at hb
        apply poolSizingBounds_setAutoscaling q _ hq'
        apply autoscalingBounds_mk
        all_goals try rw [min_def]
        all_goals try split_ifs
        all_goals omega
      · exact hq'
    · exact hq'
  · intro nodePools poolId maxNodes hinv p hp
    simp only [handleMaxNodesChange, List.mem_map] at hp
    obtain ⟨q, hq, rfl⟩ := hp
    have hq' := hinv q hq
    split
    · rename_i a heq
      split
      · have hb := poolSizingBounds_autoscaling q a hq' heq
        unfold autoscalingBounds at hb
        apply poolSizingBounds_setAutoscaling q _ hq'
        apply autoscalingBounds_mk
        all_goals try rw [max_def]
        all_goals try split_ifs
        all_goals omega
      · exact hq'
    · exact hq'
  · intro nodePools poolId enabled hinv hcount p hp
    simp only [handleAutoscalingToggle, List.mem_map] at hp
    obtain ⟨q, hq, rfl⟩ := hp
    have hq' := hinv q hq
    split
    · rename_i h
      have hc := hcount q hq h
      have hcount1 : 1 ≤ q.count := by
        unfold poolSizingBounds at hq'
        exact hq'.1
      apply poolSizingBounds_setAutoscaling q _ hq'
      apply autoscalingBounds_mk
      all_goals cases enabled
      all_goals simp only [if_true, if_false, Bool.false_eq_true]
      all_goals try rw [max_def]
      all_goals try split_ifs
      all_goals omega
    · exact hq'

/-- Witness for the amended C9 at concrete inputs: clamping an oversized
count and a valid autoscaling toggle at count ≤ 10. -/
theorem c9_sizing_bounds_witness :
    poolSizingBounds ({ widePool with count := 20 }) := by
  exact c9_sizing_bounds.1 [widePool] "p1" 25 (by decide)
    { widePool with count := 20 } (by decide)

/-! ## Cluster-create modal state machine (CreateClusterModal.tsx)

The modal state the claims need: selected provider, the control-plane pool
(created by the provider-select effect with `count: 1` and never resized —
the count input is disabled), the worker pools, and the initial-setup
flag.  The random `Date.now()` suffix of a new pool id is abstracted by
the pool-list length. -/

structure ModalState where
  selectedProvider : Option Provider
  controlPlane : Option NodePool
  nodePools : List NodePool
  isInitialSetup : Bool
deriving DecidableEq

def initialModalState : ModalState := ⟨none, none, [], true⟩

/-- The control plane built by the provider-select effect: fixed id and
name, the provider's first node type and region, and `count: 1`. -/
def cpAfterSelect (p : Provider) : Option NodePool :=
  match p.nodeTypes, p.regions with
  | nt :: _, r :: _ => some ⟨"control-plane", "control-plane", nt, 1, some r, none⟩
  | _, _ => none

/-- `addDefaultNodePool` (count 1, autoscaling disabled with range [0, 1]). -/
def defaultNodePool (nt : NodeType) (r : Region) : NodePool :=
  ⟨"pool-default", "default-pool", nt, 1, some r, some ⟨false, 0, 1⟩⟩

inductive ModalEvent where
  | selectProvider (p : Provider)
  | cpNodeType (nodeTypeId : String)
  | cpRegion (regionId : String)
  | addNodePool
  | removeNodePool (poolId : String)
  | poolName (poolId newName : String)
  | poolNodeType (poolId nodeTypeId : String)
  | poolRegion (poolId regionId : String)
  | nodeCount (poolId : String) (count : Int)
  | minNodes (poolId : String) (minNodes : Int)
  | maxNodes (poolId : String) (maxNodes : Int)
  | autoscalingToggle (poolId : String) (enabled : Bool)

def modalStep (s : ModalState) (e : ModalEvent) : ModalState :=
  match e with
  | ModalEvent.selectProvider p =>
      match cpAfterSelect p with
      | some cp =>
          let s1 : ModalState := { s with selectedProvider := some p, controlPlane := some cp }
          if s1.nodePools.isEmpty && s1.isInitialSetup then
            match p.nodeTypes, p.regions with
            | nt :: _, r :: _ =>
                { s1 with nodePools := [defaultNodePool nt r], isInitialSetup := false }
            | _, _ => s1
          else s1
      | none => { s with selectedProvider := some p, controlPlane := none }
  | ModalEvent.cpNodeType nodeTypeId =>
      match s.selectedProvider, s.controlPlane with
      | some p, some cp =>
          match p.nodeTypes.find? (fun nt => nt.id = nodeTypeId) with
          | some nt => { s with controlPlane := some { cp with nodeType := nt } }
          | none => s
      | _, _ => s
  | ModalEvent.cpRegion regionId =>
      match s.selectedProvider, s.controlPlane with
      | some p, some cp =>
          match p.regions.find? (fun r => r.id = regionId) with
          | some r => { s with controlPlane := some { cp with region := some r } }
          | none => s
      | _, _ => s
  | ModalEvent.addNodePool =>
      match s.selectedProvider with
      | some p =>
          match p.nodeTypes, p.regions with
          | nt :: _, r :: _ =>
              { s with nodePools := s.nodePools ++
                  [⟨"pool-" ++ toString s.nodePools.length,
                    "node-pool-" ++ toString s.nodePools.length,
                    nt, 1, some r, some ⟨false, 0, 1⟩⟩] }
          | _, _ => s
      | none => s
  | ModalEvent.removeNodePool poolId =>
      { s with nodePools := s.nodePools.filter (fun pool => pool.id ≠ poolId) }
  | ModalEvent.poolName poolId newName =>
      { s with nodePools := s.nodePools.map (fun pool =>
          if pool.id = poolId then { pool with name := newName } else pool) }
  | ModalEvent.poolNodeType poolId nodeTypeId =>
      match s.selectedProvider with
      | some p =>
          match p.nodeTypes.find? (fun nt => nt.id = nodeTypeId) with
          | some nt =>
              { s with nodePools := s.nodePools.map (fun pool =>
                  if pool.id = poolId then { pool with nodeType := nt } else pool) }
          | none => s
      | none => s
  | ModalEvent.poolRegion poolId regionId =>
      match s.selectedProvider with
      | some p =>
          match p.regions.find? (fun r => r.id = regionId) with
          | some r =>
              { s with nodePools := s.nodePools.map (fun pool =>
                  if pool.id = poolId then { pool with region := some r } else pool) }
          | none => s
      | none => s
  | ModalEvent.nodeCount poolId count =>
      { s with nodePools := handleNodeCountChange s.nodePools poolId count }
  | ModalEvent.minNodes poolId minNodes =>
      { s with nodePools := handleMinNodesChange s.nodePools poolId minNodes }
  | ModalEvent.maxNodes poolId maxNodes =>
      { s with nodePools := handleMaxNodesChange s.nodePools poolId maxNodes }
  | ModalEvent.autoscalingToggle poolId enabled =>
      { s with nodePools := handleAutoscalingToggle s.nodePools poolId enabled }

/-- The modal states reachable from a fresh dialog. -/
inductive ModalReachable : ModalState → Prop where
  | init : ModalReachable initialModalState
  | step (s : ModalState) (e : ModalEvent) :
      ModalReachable s → ModalReachable (modalStep s e)

/-- How one modal event can change the control-plane pool: not at all,
rebuilt by the provider-select effect, or a node-type/region update that
keeps the count. -/
theorem modalStep_controlPlane (s : ModalState) (e : ModalEvent) :
    (modalStep s e).controlPlane = s.controlPlane
    ∨ (∃ p, (modalStep s e).controlPlane = cpAfterSelect p)
    ∨ (∃ cp nt, s.controlPlane = some cp
        ∧ (modalStep s e).controlPlane = some { cp with nodeType := nt })
    ∨ (∃ cp r, s.controlPlane = some cp
        ∧ (modalStep s e).controlPlane = some { cp with region := some r }) := by
  cases e with
  | selectProvider p =>
      refine Or.inr (Or.inl ⟨p, ?_⟩)
      cases hcps : cpAfterSelect p with
      | none => simp [modalStep, hcps]
      | some cp1 =>
          simp only [modalStep, hcps]
          repeat' split
          all_goals simp
  | cpNodeType nodeTypeId =>
      cases hsel : s.selectedProvider with
      | none => left; simp [modalStep, hsel]
      | some p =>
          cases hc : s.controlPlane with
          | none => left; simp [modalStep, hsel, hc]
          | some cp0 =>
              cases hfind : p.nodeTypes.find? (fun nt => decide (nt.id = nodeTypeId)) with
              | none => left; simp [modalStep, hsel, hc, hfind]
              | some nt =>
                  refine Or.inr (Or.inr (Or.inl ⟨cp0, nt, rfl, ?_⟩))
                  simp [modalStep, hsel, hc, hfind]
  | cpRegion regionId =>
      cases hsel : s.selectedProvider with
      | none => left; simp [modalStep, hsel]
      | some p =>
          cases hc : s.controlPlane with
          | none => left; simp [modalStep, hsel, hc]
          | some cp0 =>
              cases hfind : p.regions.find? (fun r => decide (r.id = regionId)) with
              | none => left; simp [modalStep, hsel, hc, hfind]
              | some r =>
                  refine Or.inr (Or.inr (Or.inr ⟨cp0, r, rfl, ?_⟩))
                  simp [modalStep, hsel, hc, hfind]
  | addNodePool =>
      left
      simp only [modalStep]
      repeat' split
      all_goals rfl
  | removeNodePool poolId => left; rfl
  | poolName poolId newName => left; rfl
  | poolNodeType poolId nodeTypeId =>
      left
      simp only [modalStep]
      repeat' split
      all_goals rfl
  | poolRegion poolId regionId =>
      left
      simp only [modalStep]
      repeat' split
      all_goals rfl
  | nodeCount poolId count => left; rfl
  | minNodes poolId minNodes => left; rfl
  | maxNodes poolId maxNodes => left; rfl
  | autoscalingToggle poolId enabled => left; rfl

/-- The provider-select effect only ever builds a control plane with
count 1. -/
theorem cpAfterSelect_count (p : Provider) (cp : NodePool)
    (h : cpAfterSelect p = some cp) : cp.count = 1 := by
  unfold cpAfterSelect at h
  repeat split at h
  all_goals try simp_all
  all_goals (subst h; rfl)

/-- In every reachable modal state the control-plane pool, when present,
has node count 1: the effect creates it with count 1, the node-type and
region handlers keep the count, and no handler resizes it. -/
theorem modal_controlPlane_count (s : ModalState) (h : ModalReachable s) :
    ∀ cp, s.controlPlane = some cp → cp.count = 1 := by
  induction h with
  | init => intro cp hcp; simp [initialModalState] at hcp
  | step s e hs ih =>
      intro cp hcp
      rcases modalStep_controlPlane s e with heq | ⟨p, heq⟩ | ⟨cp0, nt, hc, heq⟩
        | ⟨cp0, r, hc, heq⟩
      · exact ih cp (heq ▸ hcp)
      · exact cpAfterSelect_count p cp (heq ▸ hcp)
      · rw [heq, Option.some.injEq] at hcp
        subst hcp
        simpa using ih cp0 hc
      · rw [heq, Option.some.injEq] at hcp
        subst hcp
        simpa using ih cp0 hc

/-! ## Cluster-create request pools (store `createCluster`, part_005
lines 202–235)

The request's pool list is `[controlPlanePool, ...workerPools]`: the
control-plane entry is built from the designated control-plane pool with
the hard-coded name `"control-plane"` and `number_of_nodes:
String(controlPlane.count)`, and carries no `autoscaling` object; every
worker entry carries one. -/

structure AutoscalingRequest where
  enabled : Bool
  min_nodes : Int
  max_nodes : Int
deriving DecidableEq

structure PoolRequest where
  name : String
  number_of_nodes : String
  node_type : String
  region : String
  autoscaling : Option AutoscalingRequest := none
deriving DecidableEq

def mkControlPlanePoolRequest (controlPlane : NodePool) : PoolRequest :=
  { name := "control-plane",
    number_of_nodes := toString controlPlane.count,
    node_type := controlPlane.nodeType.id,
    region := (controlPlane.region.map Region.id).getD "",
    autoscaling := none }

def mkWorkerPoolRequest (pool : NodePool) : PoolRequest :=
  -- modal worker pools always carry an autoscaling object; the source
  -- reads `pool.autoscaling.enabled` directly
  let a := pool.autoscaling.getD ⟨false, 0, 1⟩
  { name := pool.name,
    number_of_nodes := toString (if a.enabled then a.minNodes else pool.count),
    node_type := pool.nodeType.id,
    region := (pool.region.map Region.id).getD "",
    autoscaling := some ⟨a.enabled, a.minNodes, a.maxNodes⟩ }

/-- `allPools = [controlPlanePool, ...workerPools]`. -/
def buildPoolsRequest (controlPlane : NodePool) (nodePools : List NodePool) :
    List PoolRequest :=
  mkControlPlanePoolRequest controlPlane :: nodePools.map mkWorkerPoolRequest

/-- C5: for every reachable modal state with a control plane, the pool list
of the cluster-create request starts with the control-plane entry, that
entry is named `"control-plane"` with `number_of_nodes = "1"`, and it is
the only entry without an autoscaling object — exactly one control-plane
pool per request. -/
theorem c5_control_plane_pool (s : ModalState) (cp : NodePool)
    (hreach : ModalReachable s) (hcp : s.controlPlane = some cp) :
    (buildPoolsRequest cp s.nodePools).head? = some (mkControlPlanePoolRequest cp)
    ∧ (mkControlPlanePoolRequest cp).name = "control-plane"
    ∧ (mkControlPlanePoolRequest cp).number_of_nodes = "1"
    ∧ ((buildPoolsRequest cp s.nodePools).filter
        (fun q => q.autoscaling = none)).length = 1 := by
  have hcount : cp.count = 1 := modal_controlPlane_count s hreach cp hcp
  refine ⟨rfl, rfl, ?_, ?_⟩
  · show toString cp.count = "1"
    rw [hcount]
    rfl
  · unfold buildPoolsRequest
    rw [List.filter_cons]
    have hcpnone : (mkControlPlanePoolRequest cp).autoscaling = none := rfl
    have hworkers : (s.nodePools.map mkWorkerPoolRequest).filter
        (fun q => q.autoscaling = none) = [] := by
      rw [List.filter_eq_nil_iff]
      intro q hq
      rw [List.mem_map] at hq
      obtain ⟨pool, -, rfl⟩ := hq
      simp [mkWorkerPoolRequest]
    simp [hcpnone, hworkers]

def demoModalControlPlane : NodePool :=
  ⟨"control-plane", "control-plane", demoNodeType, 1, some demoRegion, none⟩

/-- Witness for C5 at a concrete reachable state: select the demo provider
in a fresh modal, then add a second worker pool. -/
theorem c5_control_plane_pool_witness :
    (buildPoolsRequest demoModalControlPlane
        (modalStep (modalStep initialModalState
          (ModalEvent.selectProvider demoProvider)) ModalEvent.addNodePool).nodePools).head?
      = some (mkControlPlanePoolRequest demoModalControlPlane)
    ∧ (mkControlPlanePoolRequest demoModalControlPlane).name = "control-plane"
    ∧ (mkControlPlanePoolRequest demoModalControlPlane).number_of_nodes = "1"
    ∧ ((buildPoolsRequest demoModalControlPlane
        (modalStep (modalStep initialModalState
          (ModalEvent.selectProvider demoProvider)) ModalEvent.addNodePool).nodePools).filter
        (fun q => q.autoscaling = none)).length = 1 :=
  c5_control_plane_pool _ demoModalControlPlane
    (ModalReachable.step _ _ (ModalReachable.step _ _ ModalReachable.init))
    (by decide)
